import Mathlib

/-!
Verification of the panel simulation subsystem of the multiply-or-release
game (file src/panel_plugin.rs). The definitions below are a shallow
embedding of that source: f32 values are modelled as rationals, the ECS
world is modelled by explicit query functions and association lists, the
physics intersection query is an opaque boolean predicate, and the
thread-local random number generator is modelled by an explicit stream of
samples threaded through the code that consumes it.
-/

namespace MOR

/-- Bevy entity identifiers, modelled as natural numbers. -/
abbrev Entity := Nat

/-- The four game participants (enum Participant, used exhaustively in
PanelRootSide::for_participant at panel_plugin.rs lines 301 to 306). -/
inductive Participant
  | A
  | B
  | C
  | D
deriving DecidableEq, Repr

/-- TriggerType from panel_plugin.rs lines 130 to 135. -/
inductive TriggerType
  | Multiply (factor : Nat)
  | BurstShot
  | ChargedShot
deriving DecidableEq, Repr

/-- PanelRootSide from panel_plugin.rs lines 295 to 299. -/
inductive PanelRootSide
  | Left
  | Right
deriving DecidableEq, Repr

/-- PanelRootSide::for_participant, panel_plugin.rs lines 301 to 306. -/
def PanelRootSide.for_participant : Participant → PanelRootSide
  | .A | .B => .Left
  | .C | .D => .Right

/-- The gameplay trigger event, panel_plugin.rs lines 125 to 129. -/
structure TriggerEvent where
  participant : Participant
  trigger_type : TriggerType
deriving DecidableEq, Repr

/-- Rapier collision events. The source matches CollisionEvent::Started(a, b, _)
and CollisionEvent::Stopped(a, b, _); the flags argument is never inspected,
so it is omitted here. -/
inductive CollisionEvent
  | Started (a b : Entity)
  | Stopped (a b : Entity)
deriving DecidableEq, Repr

/-- What an entity resolves to under the two queries of the trigger
translator. In this program the component sets are disjoint: a
TriggerZoneBundle carries TriggerType and no Participant, a
WorkerBallBundle carries WorkerBall plus Participant and no TriggerType,
and every other entity carries neither. -/
inductive EntityKind
  | zone (t : TriggerType)
  | ball (p : Participant)
  | other
deriving DecidableEq, Repr

/-- Query of trigger_event: trigger_zone_query gets the TriggerType component. -/
def triggerZoneQuery (kind : Entity → EntityKind) (e : Entity) : Option TriggerType :=
  match kind e with
  | .zone t => some t
  | _ => none

/-- Query of trigger_event: worker_ball_query gets the Participant component of
entities with the WorkerBall marker. -/
def workerBallQuery (kind : Entity → EntityKind) (e : Entity) : Option Participant :=
  match kind e with
  | .ball p => some p
  | _ => none

/-- Body of the event loop of trigger_event, panel_plugin.rs lines 822 to 846:
for a Started contact, look the trigger type up on a then b, then the ball
participant on a then b; emit one event when both lookups succeed. Stopped
contacts produce nothing. -/
def processCollisionEvent (kind : Entity → EntityKind) :
    CollisionEvent → Option TriggerEvent
  | .Started a b =>
    match (match triggerZoneQuery kind a with
           | some t => some t
           | none => triggerZoneQuery kind b) with
    | none => none
    | some t =>
      match (match workerBallQuery kind a with
             | some p => some p
             | none => workerBallQuery kind b) with
      | none => none
      | some p => some ⟨p, t⟩
  | .Stopped _ _ => none

/-- The trigger_event system, panel_plugin.rs lines 811 to 847. The restart
event carries no data that this system reads, so restart events are
modelled as units. If any restart event is pending the collision batch is
cleared before the loop runs. -/
def trigger_event (restartEvents : List Unit) (collisionEvents : List CollisionEvent)
    (kind : Entity → EntityKind) : List TriggerEvent :=
  let collisionEvents := if restartEvents ≠ [] then [] else collisionEvents
  collisionEvents.filterMap (processCollisionEvent kind)

/-- Spec-side translator, written from the words of section 4.4 of the spec:
one side of a begin contact must resolve to a TriggerZone, the other to a
WorkerBall; if both resolve, emit one event; contacts involving neither or
only one of the required kinds are ignored, and end contacts are not part
of this translator. -/
def specTriggerTranslate (kind : Entity → EntityKind) :
    CollisionEvent → Option TriggerEvent
  | .Started a b =>
    match kind a, kind b with
    | .zone t, .ball p => some ⟨p, t⟩
    | .ball p, .zone t => some ⟨p, t⟩
    | _, _ => none
  | .Stopped _ _ => none

-- Constants from panel_plugin.rs lines 27 to 92.

/-- LEFT_ROOT_X. -/
abbrev LEFT_ROOT_X : ℚ := -500
/-- RIGHT_ROOT_X. -/
abbrev RIGHT_ROOT_X : ℚ := 500
/-- ARENA_WIDTH / 2, the half width of the horizontal span of a panel. -/
abbrev ARENA_WIDTH_FRAC_2 : ℚ := 130
/-- WORKER_BALL_SPAWN_Y. -/
abbrev WORKER_BALL_SPAWN_Y : ℚ := 320
/-- WORKER_BALL_DIAMETER = 2 * WORKER_BALL_RADIUS = 10. -/
abbrev WORKER_BALL_DIAMETER : ℚ := 10
/-- WORKER_BALL_COUNT_MAX. -/
abbrev WORKER_BALL_COUNT_MAX : Nat := 6
/-- WORKER_BALL_SPAWN_TIMER_SECS. -/
abbrev WORKER_BALL_SPAWN_TIMER_SECS : ℚ := 10

/-- Membership in the sampling span of Uniform::new(-ARENA_WIDTH_FRAC_2,
ARENA_WIDTH_FRAC_2), a half open interval. -/
abbrev inSpan (x : ℚ) : Prop :=
  -ARENA_WIDTH_FRAC_2 ≤ x ∧ x < ARENA_WIDTH_FRAC_2

/-- WorkerBallShapeCaster, panel_plugin.rs lines 896 to 939. The rapier
intersection query (intersection_with_shape with QueryFilter::only_dynamic
restricted to the worker ball collision group) is modelled as an opaque
predicate on the world position of the cast shape. -/
structure ShapeCaster where
  rootX : ℚ
  rootY : ℚ
  intersectShape : ℚ → ℚ → Bool

/-- The acceptance test inside WorkerBallShapeCaster::get: a sample x passes
when the shape centered at (x + root.x, WORKER_BALL_SPAWN_Y + root.y)
intersects nothing. -/
def ShapeCaster.free (c : ShapeCaster) (x : ℚ) : Bool :=
  !c.intersectShape (x + c.rootX) (WORKER_BALL_SPAWN_Y + c.rootY)

/-- WorkerBallShapeCaster::get, panel_plugin.rs lines 916 to 938: return the
first drawn sample that passes the free test, together with the remainder
of the sample stream. The source iterates over an infinite stream; here the
stream is a finite prefix and none models exhausting that prefix. -/
def castGet (free : ℚ → Bool) : List ℚ → Option (ℚ × List ℚ)
  | [] => none
  | x :: rest => if free x then some (x, rest) else castGet free rest

/-- The paired placement loop of spawn_workers, panel_plugin.rs lines 715 to
723: draw xa then xb from the same caster; accept when their distance
exceeds WORKER_BALL_DIAMETER, otherwise discard both and redraw the pair.
The source loop is unbounded; fuel bounds the number of pair draws here. -/
def drawPair (free : ℚ → Bool) : Nat → List ℚ → Option (ℚ × ℚ × List ℚ)
  | 0, _ => none
  | fuel + 1, samples =>
    match castGet free samples with
    | none => none
    | some (xa, s1) =>
      match castGet free s1 with
      | none => none
      | some (xb, s2) =>
        if WORKER_BALL_DIAMETER < |xa - xb| then some (xa, xb, s2)
        else drawPair free fuel s2

/-- An idle trail: an entity carrying InactiveWorkerBallTrail(is_left), as
seen by the trail query of spawn_workers. The id stands for the trail
entity. -/
structure IdleTrail where
  id : Nat
  isLeft : Bool
deriving DecidableEq, Repr

/-- The filtered iterator trail_query.iter_mut().filter_map(...).next() of
spawn_workers (panel_plugin.rs lines 724 to 728): take the first idle trail
whose is_left tag equals want_left, leaving the rest of the pool in query
order. -/
def takeIdle (wantLeft : Bool) : List IdleTrail → Option (IdleTrail × List IdleTrail)
  | [] => none
  | t :: rest =>
    if t.isLeft = wantLeft then some (t, rest)
    else
      match takeIdle wantLeft rest with
      | some (u, rest2) => some (u, t :: rest2)
      | none => none

/-- What spawn_workers does about the trail of one new ball: either an
existing idle trail entity is reused (relinked to the new ball, its spawn
color restored to the participant color, repositioned to the spawn point),
or a fresh WorkerBallTrailBundle is spawned. posX is the world x of the
trail, x + root_translation.x in the source. -/
inductive TrailAction
  | reused (id : Nat) (owner : Participant) (posX : ℚ)
  | allocated (owner : Participant) (posX : ℚ)
deriving DecidableEq, Repr

/-- The setup_trail closure of the both-alive branch of spawn_workers,
panel_plugin.rs lines 729 to 758: reuse the next matching idle trail if the
filtered iterator yields one, otherwise spawn a fresh trail bundle. -/
def setupTrail (wantLeft : Bool) (p : Participant) (x rootX : ℚ)
    (idle : List IdleTrail) : TrailAction × List IdleTrail :=
  match takeIdle wantLeft idle with
  | some (t, rest) => (TrailAction.reused t.id p (x + rootX), rest)
  | none => (TrailAction.allocated p (x + rootX), idle)

/-- A ball spawned by spawn_workers, with its local x coordinate. -/
structure SpawnEntry where
  participant : Participant
  x : ℚ
deriving DecidableEq, Repr

/-- Observable outcome of the closure f of spawn_workers for one panel. -/
structure PanelResult where
  balls : List SpawnEntry
  trailActions : List TrailAction
  idleAfter : List IdleTrail
  samplesAfter : List ℚ
deriving DecidableEq, Repr

/-- The per panel closure f of spawn_workers, panel_plugin.rs lines 685 to
762, for participants a and b with liveness flags survA and survB. Both
dead: nothing. Exactly one alive: one ball from a single cast, and a fresh
trail bundle is spawned unconditionally (the idle pool is not consulted on
this path). Both alive: a pair of x values from the paired draw loop, then
setup_trail for a and for b in that order, sharing one filtered iterator
over the idle pool. none models exhausting the finite sample prefix. -/
def spawnPanel (survA survB : Bool) (a b : Participant) (wantLeft : Bool)
    (c : ShapeCaster) (fuel : Nat) (samples : List ℚ) (idle : List IdleTrail) :
    Option PanelResult :=
  match survA, survB with
  | false, false => some ⟨[], [], idle, samples⟩
  | true, false =>
    match castGet c.free samples with
    | none => none
    | some (x, rest) =>
      some ⟨[⟨a, x⟩], [TrailAction.allocated a (x + c.rootX)], idle, rest⟩
  | false, true =>
    match castGet c.free samples with
    | none => none
    | some (x, rest) =>
      some ⟨[⟨b, x⟩], [TrailAction.allocated b (x + c.rootX)], idle, rest⟩
  | true, true =>
    match drawPair c.free fuel samples with
    | none => none
    | some (xa, xb, rest) =>
      let r1 := setupTrail wantLeft a xa c.rootX idle
      let r2 := setupTrail wantLeft b xb c.rootX r1.2
      some ⟨[⟨a, xa⟩, ⟨b, xb⟩], [r1.1, r2.1], r2.2, rest⟩

/-- A bevy repeating Timer, reduced to the fields this subsystem observes:
its duration, accumulated elapsed time, and whether the last tick crossed
the duration. -/
structure RTimer where
  duration : ℚ
  elapsed : ℚ
  justFinished : Bool
deriving DecidableEq, Repr

/-- Timer::tick for a repeating timer: add the delta; when the duration is
reached the timer reports just_finished and wraps the elapsed time modulo
the duration. -/
def RTimer.tick (t : RTimer) (delta : ℚ) : RTimer :=
  let e := t.elapsed + delta
  if t.duration ≤ e then
    { t with elapsed := e - t.duration * (⌊e / t.duration⌋ : ℤ), justFinished := true }
  else
    { t with elapsed := e, justFinished := false }

/-- Timer::reset: clear the elapsed time and the finished flags. -/
def RTimer.reset (t : RTimer) : RTimer :=
  { t with elapsed := 0, justFinished := false }

/-- WorkerBallSpawner, panel_plugin.rs lines 222 to 247, without the mesh
handle (an opaque asset). trailLifetime stands for utils::TRAIL_LIFETIME,
whose defining module is outside this source set; it is kept as an explicit
parameter of the two constructions that read it. -/
structure WorkerBallSpawner where
  timer : RTimer
  counter : Nat
deriving DecidableEq, Repr

/-- WorkerBallSpawner::new: a fresh repeating timer of
WORKER_BALL_SPAWN_TIMER_SECS, pre ticked by the timer period minus the trail
lifetime, and a zero counter. -/
def WorkerBallSpawner.new (trailLifetime : ℚ) : WorkerBallSpawner :=
  { timer := (RTimer.mk WORKER_BALL_SPAWN_TIMER_SECS 0 false).tick
      (WORKER_BALL_SPAWN_TIMER_SECS - trailLifetime)
    counter := 0 }

/-- WorkerBallSpawner::reset, panel_plugin.rs lines 240 to 246: reset the
timer, re apply the phase shift tick, zero the counter. -/
def WorkerBallSpawner.reset (trailLifetime : ℚ) (s : WorkerBallSpawner) :
    WorkerBallSpawner :=
  { timer := s.timer.reset.tick (WORKER_BALL_SPAWN_TIMER_SECS - trailLifetime)
    counter := 0 }

/-- The two panel processing calls of spawn_workers, panel_plugin.rs lines
772 to 785: left panel with participants A and B and want_left true, then
right panel with C and D and want_left false, threading the sample stream
and the idle trail pool through both. -/
def spawnBothPanels (surv : Participant → Bool) (cl cr : ShapeCaster) (fuel : Nat)
    (samples : List ℚ) (idle : List IdleTrail) : Option (PanelResult × PanelResult) :=
  match spawnPanel (surv .A) (surv .B) .A .B true cl fuel samples idle with
  | none => none
  | some L =>
    match spawnPanel (surv .C) (surv .D) .C .D false cr fuel L.samplesAfter L.idleAfter with
    | none => none
    | some R => some (L, R)

/-- One scheduled run of the spawn_workers system together with its run_if
gate spawn_workers_condition (panel_plugin.rs lines 107 to 110 and 665 to
667): the system body runs only while counter < WORKER_BALL_COUNT_MAX; the
body first ticks the timer, returns early unless the tick just finished,
otherwise processes both panels and then increments the counter by one. -/
def spawnWorkersStep (s : WorkerBallSpawner) (delta : ℚ) (surv : Participant → Bool)
    (cl cr : ShapeCaster) (fuel : Nat) (samples : List ℚ) (idle : List IdleTrail) :
    WorkerBallSpawner × Option (PanelResult × PanelResult) :=
  if s.counter < WORKER_BALL_COUNT_MAX then
    let t := s.timer.tick delta
    if t.justFinished then
      ({ timer := t, counter := s.counter + 1 }, spawnBothPanels surv cl cr fuel samples idle)
    else
      ({ s with timer := t }, none)
  else
    (s, none)

/-- State of one trail entity: either linked to a ball by a WorkerBallTrail
component, or carrying InactiveWorkerBallTrail(is_left). -/
inductive TrailState
  | Active (ball : Entity)
  | Idle (isLeft : Bool)
deriving DecidableEq, Repr

/-- A trail entity with its EffectProperties (spawn color, none meaning
LinearRgba::NONE, and position) and its state. -/
structure TrailEnt where
  color : Option Nat
  pos : ℚ × ℚ
  state : TrailState
deriving DecidableEq, Repr

/-- World state touched by restart and update_workers_particle_position:
the spawner resource, the worker ball entities, the trail entities in query
order, and the Local go_left boolean of
update_workers_particle_position. -/
structure World where
  spawner : WorkerBallSpawner
  balls : List Entity
  trails : List TrailEnt
  goLeft : Bool
deriving DecidableEq, Repr

/-- The trail loop of restart, panel_plugin.rs lines 950 to 957. The query
asks for InactiveWorkerBallTrail, so only idle trails are visited; each
visited trail has its color suppressed, is parked at the resting x of the
current toggle value at spawn height, is retagged with the toggle value,
and the toggle flips. Active trails are not in the query and are left
untouched, without advancing the toggle. -/
def parkIdleTrails (g : Bool) : List TrailEnt → List TrailEnt
  | [] => []
  | t :: rest =>
    match t.state with
    | .Idle _ =>
      { color := none
        pos := (if g then LEFT_ROOT_X else RIGHT_ROOT_X, WORKER_BALL_SPAWN_Y)
        state := .Idle g } :: parkIdleTrails (!g) rest
    | .Active _ => t :: parkIdleTrails g rest

/-- The restart system, panel_plugin.rs lines 940 to 958: reset the spawner,
despawn every WorkerBall entity, and run the idle trail loop with a local
toggle freshly initialized to false. The Local go_left of
update_workers_particle_position is a different variable and is not
touched. -/
def restart (trailLifetime : ℚ) (w : World) : World :=
  { spawner := w.spawner.reset trailLifetime
    balls := []
    trails := parkIdleTrails false w.trails
    goLeft := w.goLeft }

/-- Loop body of update_workers_particle_position, panel_plugin.rs lines 788
to 810, folded over the trails in query order. The query asks for
WorkerBallTrail, so only active trails are visited. If the linked ball
still resolves to a transform, the trail follows it; otherwise the trail is
made inactive with the current value of the Local go_left toggle, its color
is suppressed, it is parked at the resting x of that value, and the toggle
flips. -/
def updateTrails (resolve : Entity → Option (ℚ × ℚ)) (g : Bool) :
    List TrailEnt → List TrailEnt × Bool
  | [] => ([], g)
  | t :: rest =>
    match t.state with
    | .Active ballE =>
      match resolve ballE with
      | some pos =>
        let r := updateTrails resolve g rest
        ({ t with pos := pos } :: r.1, r.2)
      | none =>
        let parked : TrailEnt :=
          { color := none
            pos := (if g then LEFT_ROOT_X else RIGHT_ROOT_X, WORKER_BALL_SPAWN_Y)
            state := .Idle g }
        let r := updateTrails resolve (!g) rest
        (parked :: r.1, r.2)
    | .Idle _ =>
      let r := updateTrails resolve g rest
      (t :: r.1, r.2)

/-- One run of the update_workers_particle_position system on the world. -/
def update_workers_particle_position (resolve : Entity → Option (ℚ × ℚ))
    (w : World) : World :=
  let r := updateTrails resolve w.goLeft w.trails
  { w with trails := r.1, goLeft := r.2 }

/-- True when the trail currently carries InactiveWorkerBallTrail. -/
def trailIsIdle (t : TrailEnt) : Bool :=
  match t.state with
  | .Idle _ => true
  | .Active _ => false

/-- True when the trail is color suppressed and parked at a resting position
at spawn height. -/
def trailParkedOk (t : TrailEnt) : Bool :=
  decide (t.color = none) && decide (t.pos.2 = WORKER_BALL_SPAWN_Y) &&
    (decide (t.pos.1 = LEFT_ROOT_X) || decide (t.pos.1 = RIGHT_ROOT_X))

/-- State of one worker ball as read and written by ball_reset: local
translation, linear velocity, angular velocity, owning participant. -/
structure BallSt where
  pos : ℚ × ℚ
  vel : ℚ × ℚ
  angvel : ℚ
  participant : Participant
deriving DecidableEq, Repr

/-- Lookup in the worker ball population, keyed by entity. -/
def findBall : List (Entity × BallSt) → Entity → Option BallSt
  | [], _ => none
  | kv :: rest, e => if kv.1 = e then some kv.2 else findBall rest e

/-- Pointwise update of the worker ball population at one entity. -/
def updateBall (balls : List (Entity × BallSt)) (e : Entity) (v : BallSt) :
    List (Entity × BallSt) :=
  balls.map fun kv => if kv.1 = e then (e, v) else kv

/-- The caster built by ball_reset for a ball of the given participant: the
root transform of the panel root whose side serves that participant, with
the shared rapier intersection predicate. -/
def casterAt (roots : PanelRootSide → ℚ × ℚ) (intersect : ℚ → ℚ → Bool)
    (p : Participant) : ShapeCaster :=
  ⟨(roots (PanelRootSide.for_participant p)).1,
   (roots (PanelRootSide.for_participant p)).2, intersect⟩

/-- Loop body of ball_reset, panel_plugin.rs lines 858 to 894, for one
collision event. Started contacts are skipped. For a Stopped contact, if a
is a trigger zone the candidate ball is b, else if b is a trigger zone the
candidate is a, else skip; if the candidate is not in the worker ball query
skip; otherwise cast a fresh x at the panel root of the side of the owning
participant and teleport the ball to (x, WORKER_BALL_SPAWN_Y) with zero
velocity. isZone is the trigger_zone_query (With TriggerType). -/
def ballResetEvent (isZone : Entity → Bool) (roots : PanelRootSide → ℚ × ℚ)
    (intersect : ℚ → ℚ → Bool) (balls : List (Entity × BallSt))
    (samples : List ℚ) : CollisionEvent → List (Entity × BallSt) × List ℚ
  | .Started _ _ => (balls, samples)
  | .Stopped a b =>
    match (if isZone a then some b else if isZone b then some a else none) with
    | none => (balls, samples)
    | some e =>
      match findBall balls e with
      | none => (balls, samples)
      | some bs =>
        match castGet (casterAt roots intersect bs.participant).free samples with
        | none => (balls, samples)
        | some (x, rest) =>
          (updateBall balls e
            { bs with pos := (x, WORKER_BALL_SPAWN_Y), vel := (0, 0), angvel := 0 },
           rest)

/-- The ball_reset system, panel_plugin.rs lines 848 to 895: fold the event
handler over the drained collision event batch. -/
def ball_reset (isZone : Entity → Bool) (roots : PanelRootSide → ℚ × ℚ)
    (intersect : ℚ → ℚ → Bool) (balls : List (Entity × BallSt))
    (samples : List ℚ) (events : List CollisionEvent) :
    List (Entity × BallSt) × List ℚ :=
  events.foldl (fun acc ev => ballResetEvent isZone roots intersect acc.1 acc.2 ev)
    (balls, samples)

-- Concrete instances used by witnesses and counterexamples.

/-- Demo world for the trigger translator: entity 0 is a burst shot trigger
zone, entity 1 is a worker ball owned by participant A. -/
def kindDemo : Entity → EntityKind := fun e =>
  if e = 0 then .zone .BurstShot else if e = 1 then .ball .A else .other

/-- A caster whose intersection query never hits anything. -/
def cexCaster : ShapeCaster := ⟨-500, 0, fun _ _ => false⟩

/-- A caster at the left panel root whose query reports an occupied spot at
world x = -400. -/
def cexCaster4 : ShapeCaster := ⟨-500, 0, fun wx _ => decide (wx = -400)⟩

/-- An idle pool holding one left tagged trail. -/
def cexIdle : List IdleTrail := [⟨7, true⟩]

/-- An acceptance predicate that accepts every sample. -/
def freeAll : ℚ → Bool := fun _ => true

/-- A spawner as produced at startup with trail lifetime 4. -/
def demoSpawner : WorkerBallSpawner := WorkerBallSpawner.new 4

/-- A world holding one trail that is still Active when restart runs. -/
def cexWorld7 : World := ⟨demoSpawner, [], [⟨some 1, (0, 0), .Active 5⟩], false⟩

/-- A spawner whose counter has reached the population cap, with a timer mid
period. -/
def cexSpawner8 : WorkerBallSpawner := ⟨⟨10, 3, false⟩, 6⟩

/-- An uncapped spawner whose timer is about to finish. -/
def demoSpawner10 : WorkerBallSpawner := ⟨⟨10, 9, false⟩, 0⟩

/-- A world where one idle transition already happened, so the Local go_left
toggle of update_workers_particle_position holds true. -/
def cexWorld9 : World := ⟨demoSpawner, [], [⟨some 2, (0, 0), .Active 9⟩], true⟩

/-- A transform query in which no ball entity resolves. -/
def resolveNone : Entity → Option (ℚ × ℚ) := fun _ => none

/-- Demo trigger_zone_query for ball_reset: entity 10 is a trigger zone. -/
def isZoneDemo : Entity → Bool := fun e => decide (e = 10)

/-- Demo panel roots at the source root positions. -/
def rootsDemo : PanelRootSide → ℚ × ℚ
  | .Left => (-500, 0)
  | .Right => (500, 0)

/-- An intersection query that never hits anything. -/
def noIntersect : ℚ → ℚ → Bool := fun _ _ => false

/-- The worker ball state of the demo ball owned by A. -/
def demoBallA : BallSt := ⟨(7, -250), (1, 2), 3, .A⟩

/-- A demo population: ball entity 3 owned by A, ball entity 4 owned by C. -/
def ballsDemo : List (Entity × BallSt) := [(3, demoBallA), (4, ⟨(9, 100), (0, 0), 0, .C⟩)]

-- Helper lemmas.

theorem castGet_sound (free : ℚ → Bool) :
    ∀ (samples : List ℚ) (x : ℚ) (rest : List ℚ),
      castGet free samples = some (x, rest) →
      free x = true ∧ ∃ pre, samples = pre ++ x :: rest ∧ ∀ y ∈ pre, free y = false := by
  intro samples
  induction samples with
  | nil => intro x rest h; simp [castGet] at h
  | cons a as ih =>
    intro x rest h
    cases ha : free a with
    | true =>
      rw [castGet, if_pos ha] at h
      obtain ⟨rfl, rfl⟩ := Prod.mk.injEq .. ▸ Option.some.inj h
      exact ⟨ha, [], rfl, by simp⟩
    | false =>
      rw [castGet, if_neg (by simp [ha])] at h
      obtain ⟨hx, pre, heq, hall⟩ := ih x rest h
      refine ⟨hx, a :: pre, by simp [heq], ?_⟩
      intro y hy
      rcases List.mem_cons.mp hy with rfl | hy
      · exact ha
      · exact hall y hy

theorem drawPair_sound (free : ℚ → Bool) :
    ∀ (fuel : Nat) (s : List ℚ) (xa xb : ℚ) (rest : List ℚ),
      drawPair free fuel s = some (xa, xb, rest) →
      free xa = true ∧ free xb = true ∧ WORKER_BALL_DIAMETER < |xa - xb| := by
  intro fuel
  induction fuel with
  | zero => intro s xa xb rest h; simp [drawPair] at h
  | succ n ih =>
    intro s xa xb rest h
    rw [drawPair] at h
    cases h1 : castGet free s with
    | none => rw [h1] at h; simp at h
    | some v1 =>
      obtain ⟨x1, s1⟩ := v1
      rw [h1] at h
      dsimp only at h
      cases h2 : castGet free s1 with
      | none => rw [h2] at h; simp at h
      | some v2 =>
        obtain ⟨x2, s2⟩ := v2
        rw [h2] at h
        dsimp only at h
        by_cases hd : WORKER_BALL_DIAMETER < |x1 - x2|
        · rw [if_pos hd] at h
          simp only [Option.some.injEq, Prod.mk.injEq] at h
          obtain ⟨rfl, rfl, rfl⟩ := h
          exact ⟨(castGet_sound free s _ _ h1).1, (castGet_sound free s1 _ _ h2).1, hd⟩
        · rw [if_neg hd] at h
          exact ih s2 xa xb rest h

theorem drawPair_retry (free : ℚ → Bool) (fuel : Nat) (s s1 s2 : List ℚ) (xa xb : ℚ)
    (h1 : castGet free s = some (xa, s1)) (h2 : castGet free s1 = some (xb, s2))
    (hclose : |xa - xb| < WORKER_BALL_DIAMETER) :
    drawPair free (fuel + 1) s = drawPair free fuel s2 := by
  rw [drawPair, h1]
  dsimp only
  rw [h2]
  dsimp only
  rw [if_neg (not_lt.mpr hclose.le)]

-- C1 and C2: the trigger translator.

theorem processCollisionEvent_eq_spec (kind : Entity → EntityKind) (ev : CollisionEvent) :
    processCollisionEvent kind ev = specTriggerTranslate kind ev := by
  cases ev with
  | Stopped a b => rfl
  | Started a b =>
    cases ha : kind a <;> cases hb : kind b <;>
      simp [processCollisionEvent, specTriggerTranslate, triggerZoneQuery, workerBallQuery,
        ha, hb]

/-- C1: with no restart signal in the tick, the translator emits exactly the
events described by the spec: one gameplay trigger event per contact begin
event that pairs a trigger zone (giving the trigger type) with a worker
ball (giving the owning participant), nothing for begin contacts that do
not resolve to exactly that pairing, and nothing for contact end events.
The right hand side makes the exactness explicit: a scripted batch of N
pairing begin contacts yields exactly the N corresponding events in
order. -/
theorem trigger_translator_exact (kind : Entity → EntityKind) (evs : List CollisionEvent) :
    trigger_event [] evs kind = evs.filterMap (specTriggerTranslate kind) := by
  have hfun : processCollisionEvent kind = specTriggerTranslate kind :=
    funext (processCollisionEvent_eq_spec kind)
  simp [trigger_event, hfun]

/-- C2: if at least one restart signal is pending, the translator clears the
whole pending collision batch and emits nothing. -/
theorem trigger_translator_restart_discard (kind : Entity → EntityKind)
    (restartEvents : List Unit) (evs : List CollisionEvent)
    (h : restartEvents ≠ []) :
    trigger_event restartEvents evs kind = [] := by
  simp [trigger_event, h]

/-- Witness for C2 at a concrete tick: one restart signal and a pending
contact that would otherwise emit a trigger event; nothing is emitted. -/
theorem trigger_translator_restart_discard_witness :
    trigger_event [()] [CollisionEvent.Started 0 1] kindDemo = [] :=
  trigger_translator_restart_discard kindDemo [()] [CollisionEvent.Started 0 1] (by simp)

-- C4: the placement oracle.

/-- C4: every x produced by WorkerBallShapeCaster::get (the placement oracle
shared by spawn_workers and ball_reset) lies in the sampling span, is the
first drawn sample whose ball sized shape centered at
(root.x + x, spawn height + root.y) intersects no dynamic body of the
worker ball collision category, and in particular the accepted position is
free of overlap with every pre existing live ball as judged by that same
intersection predicate. -/
theorem caster_get_first_free (c : ShapeCaster) (samples : List ℚ) (x : ℚ)
    (rest : List ℚ) (hspan : ∀ s ∈ samples, inSpan s)
    (h : castGet c.free samples = some (x, rest)) :
    inSpan x
    ∧ c.intersectShape (x + c.rootX) (WORKER_BALL_SPAWN_Y + c.rootY) = false
    ∧ ∃ pre, samples = pre ++ x :: rest ∧ ∀ y ∈ pre, c.free y = false := by
  obtain ⟨hx, pre, heq, hall⟩ := castGet_sound c.free samples x rest h
  refine ⟨hspan x ?_, ?_, pre, heq, hall⟩
  · rw [heq]
    exact List.mem_append_right _ (List.mem_cons_self _ _)
  · simpa [ShapeCaster.free] using hx

/-- Witness for C4 at a concrete caster: the first sample 100 is rejected
because the query reports an intersection at world x = -400, and the
accepted sample 20 lies in the span and is intersection free. -/
theorem caster_get_first_free_witness :
    inSpan 20
    ∧ cexCaster4.intersectShape (20 + cexCaster4.rootX)
        (WORKER_BALL_SPAWN_Y + cexCaster4.rootY) = false := by
  have h := caster_get_first_free cexCaster4 [100, 20] 20 [] (by decide)
    (by norm_num [castGet, cexCaster4, ShapeCaster.free])
  exact ⟨h.1, h.2.1⟩

-- C5: paired placement.

/-- C5: in the both alive branch, the two spawn x coordinates are drawn as a
pair: an accepted pair always differs by at least one ball diameter (the
source accepts only on a strict excess over the diameter), and whenever a
drawn pair is too close, both draws are discarded and the loop continues
with a completely fresh pair from the remaining stream — the first draw is
never kept while only the second is redrawn. -/
theorem paired_draw_pair_constraint (free : ℚ → Bool) (fuel : Nat) (s : List ℚ) :
    (∀ xa xb rest, drawPair free fuel s = some (xa, xb, rest) →
        free xa = true ∧ free xb = true ∧ WORKER_BALL_DIAMETER ≤ |xa - xb|)
    ∧ (∀ xa s1 xb s2, castGet free s = some (xa, s1) → castGet free s1 = some (xb, s2) →
        |xa - xb| < WORKER_BALL_DIAMETER →
        drawPair free (fuel + 1) s = drawPair free fuel s2) := by
  constructor
  · intro xa xb rest h
    obtain ⟨h1, h2, h3⟩ := drawPair_sound free fuel s xa xb rest h
    exact ⟨h1, h2, h3.le⟩
  · intro xa s1 xb s2 h1 h2 hclose
    exact drawPair_retry free fuel s s1 s2 xa xb h1 h2 hclose

/-- Witness for C5 at a concrete stream: the first pair (0, 5) is only 5
apart and is discarded whole; the fresh pair (0, 20) is accepted, and both
accepted values pass the acceptance test and differ by at least a
diameter. -/
theorem paired_draw_pair_constraint_witness :
    freeAll 0 = true ∧ freeAll 20 = true ∧ WORKER_BALL_DIAMETER ≤ |(0 : ℚ) - 20| :=
  (paired_draw_pair_constraint freeAll 2 [0, 5, 0, 20]).1 0 20 []
    (by norm_num [drawPair, castGet, freeAll])

-- C3: the trail pool reuse discipline.

theorem takeIdle_some_of_mem (wantLeft : Bool) :
    ∀ (idle : List IdleTrail), (∃ t ∈ idle, t.isLeft = wantLeft) →
      ∃ t rest, takeIdle wantLeft idle = some (t, rest) ∧ t.isLeft = wantLeft := by
  intro idle
  induction idle with
  | nil => simp
  | cons a as ih =>
    intro h
    by_cases ha : a.isLeft = wantLeft
    · exact ⟨a, as, by simp [takeIdle, ha], ha⟩
    · obtain ⟨t, ht, htw⟩ := h
      rcases List.mem_cons.mp ht with rfl | ht
      · exact absurd htw ha
      · obtain ⟨u, rest, hu, huw⟩ := ih ⟨t, ht, htw⟩
        exact ⟨u, a :: rest, by simp [takeIdle, ha, hu], huw⟩

theorem takeIdle_none_of_forall (wantLeft : Bool) :
    ∀ (idle : List IdleTrail), (∀ t ∈ idle, t.isLeft ≠ wantLeft) →
      takeIdle wantLeft idle = none := by
  intro idle
  induction idle with
  | nil => intro _; rfl
  | cons a as ih =>
    intro h
    have ha := h a (List.mem_cons_self a as)
    simp [takeIdle, ha, ih fun t ht => h t (List.mem_cons_of_mem a ht)]

/-- C3 counterexample: the single survivor branch of spawn_workers
(panel_plugin.rs lines 696 to 713) spawns a fresh WorkerBallTrailBundle
unconditionally. Here exactly one participant of the left panel is alive
and an Idle trail tagged for the needed side sits in the pool, yet the
outcome allocates a new trail and leaves the matching Idle trail unused, so
reuse is not mandatory before creation on this path. -/
theorem trail_reuse_single_counterexample :
    (∃ t ∈ cexIdle, t.isLeft = true)
    ∧ spawnPanel true false .A .B true cexCaster 1 [0] cexIdle =
        some ⟨[⟨.A, 0⟩], [TrailAction.allocated .A (0 + cexCaster.rootX)], cexIdle, []⟩ :=
  ⟨⟨⟨7, true⟩, by decide, rfl⟩, rfl⟩

/-- C3 amended: reuse before creation holds only on the paired path. In the
both alive branch, whenever an Idle trail of the needed side exists the
first matching one is reused (relinked to the new ball, recolored,
repositioned to the spawn point) and a fresh trail is allocated only when
no Idle trail of that side remains; in the single survivor branch a fresh
trail is always allocated and the idle pool is left untouched. -/
theorem trail_reuse_amended :
    (∀ (wantLeft : Bool) (p : Participant) (x rootX : ℚ) (idle : List IdleTrail),
        (∃ t ∈ idle, t.isLeft = wantLeft) →
        ∃ t rest, takeIdle wantLeft idle = some (t, rest) ∧ t.isLeft = wantLeft ∧
          setupTrail wantLeft p x rootX idle = (TrailAction.reused t.id p (x + rootX), rest))
    ∧ (∀ (wantLeft : Bool) (p : Participant) (x rootX : ℚ) (idle : List IdleTrail),
        (∀ t ∈ idle, t.isLeft ≠ wantLeft) →
        setupTrail wantLeft p x rootX idle = (TrailAction.allocated p (x + rootX), idle))
    ∧ (∀ (a b : Participant) (wantLeft : Bool) (c : ShapeCaster) (fuel : Nat)
        (samples rest : List ℚ) (idle : List IdleTrail) (x : ℚ),
        castGet c.free samples = some (x, rest) →
        spawnPanel true false a b wantLeft c fuel samples idle =
          some ⟨[⟨a, x⟩], [TrailAction.allocated a (x + c.rootX)], idle, rest⟩) := by
  refine ⟨?_, ?_, ?_⟩
  · intro wantLeft p x rootX idle h
    obtain ⟨t, rest, ht, htw⟩ := takeIdle_some_of_mem wantLeft idle h
    exact ⟨t, rest, ht, htw, by simp [setupTrail, ht]⟩
  · intro wantLeft p x rootX idle h
    simp [setupTrail, takeIdle_none_of_forall wantLeft idle h]
  · intro a b wantLeft c fuel samples rest idle x h
    simp [spawnPanel, h]

/-- Witness for C3 amended: with no right tagged trail in the pool, the
setup_trail path for the right panel allocates a fresh trail and leaves the
pool unchanged. -/
theorem trail_reuse_amended_witness :
    setupTrail false .A 0 (-500) cexIdle = (TrailAction.allocated .A (0 + -500), cexIdle) :=
  trail_reuse_amended.2.1 false .A 0 (-500) cexIdle (by decide)

-- C6: the zone exit recycler.

theorem findBall_updateBall_ne :
    ∀ (balls : List (Entity × BallSt)) (e : Entity) (v : BallSt) (e2 : Entity),
      e2 ≠ e → findBall (updateBall balls e v) e2 = findBall balls e2 := by
  intro balls e v
  induction balls with
  | nil => intro e2 _; rfl
  | cons kv rest ih =>
    intro e2 h
    by_cases hk : kv.1 = e
    · have hne : e ≠ e2 := fun hh => h hh.symm
      simp only [updateBall, List.map_cons, if_pos hk, findBall, if_neg hne]
      rw [if_neg (hk ▸ hne)]
      exact ih e2 h
    · simp only [updateBall, List.map_cons, if_neg hk, findBall]
      by_cases hk2 : kv.1 = e2
      · rw [if_pos hk2, if_pos hk2]
      · rw [if_neg hk2, if_neg hk2]
        exact ih e2 h

/-- C6: for a contact end event pairing a trigger zone with a worker ball,
ball_reset maps the owning participant of the ball to a panel side, casts a
fresh x with the placement oracle at that panel root, and teleports the
ball to (x, spawn height) with zero linear and angular velocity, leaving
every other ball untouched; the fresh x lies in the panel span and passes
the same no intersection predicate as at spawn. Contact end events that do
not pair a trigger zone with a worker ball, and all contact begin events,
change nothing. -/
theorem ball_reset_zone_exit (isZone : Entity → Bool) (roots : PanelRootSide → ℚ × ℚ)
    (intersect : ℚ → ℚ → Bool) (balls : List (Entity × BallSt)) (samples : List ℚ) :
    (∀ (a b : Entity) (bs : BallSt) (x : ℚ) (rest : List ℚ),
        isZone a = true → findBall balls b = some bs →
        castGet (casterAt roots intersect bs.participant).free samples = some (x, rest) →
        (∀ s ∈ samples, inSpan s) →
        ballResetEvent isZone roots intersect balls samples (.Stopped a b) =
            (updateBall balls b
              { bs with pos := (x, WORKER_BALL_SPAWN_Y), vel := (0, 0), angvel := 0 }, rest)
          ∧ inSpan x
          ∧ (casterAt roots intersect bs.participant).free x = true
          ∧ ∀ e2, e2 ≠ b →
              findBall (updateBall balls b
                { bs with pos := (x, WORKER_BALL_SPAWN_Y), vel := (0, 0), angvel := 0 }) e2 =
                findBall balls e2)
    ∧ (∀ (a b : Entity) (bs : BallSt) (x : ℚ) (rest : List ℚ),
        isZone a = false → isZone b = true → findBall balls a = some bs →
        castGet (casterAt roots intersect bs.participant).free samples = some (x, rest) →
        ballResetEvent isZone roots intersect balls samples (.Stopped a b) =
            (updateBall balls a
              { bs with pos := (x, WORKER_BALL_SPAWN_Y), vel := (0, 0), angvel := 0 }, rest))
    ∧ (∀ (a b : Entity), isZone a = false → isZone b = false →
        ballResetEvent isZone roots intersect balls samples (.Stopped a b) = (balls, samples))
    ∧ (∀ (a b : Entity), isZone a = true → findBall balls b = none →
        ballResetEvent isZone roots intersect balls samples (.Stopped a b) = (balls, samples))
    ∧ (∀ (a b : Entity), isZone a = false → isZone b = true → findBall balls a = none →
        ballResetEvent isZone roots intersect balls samples (.Stopped a b) = (balls, samples))
    ∧ (∀ (a b : Entity),
        ballResetEvent isZone roots intersect balls samples (.Started a b) = (balls, samples)) := by
  refine ⟨?_, ?_, ?_, ?_, ?_, fun a b => rfl⟩
  · intro a b bs x rest hza hfb hcast hspan
    obtain ⟨hfree, pre, heq, _⟩ := castGet_sound _ samples x rest hcast
    refine ⟨by simp [ballResetEvent, hza, hfb, hcast], ?_, hfree, fun e2 he2 =>
      findBall_updateBall_ne balls b _ e2 he2⟩
    exact hspan x (by rw [heq]; exact List.mem_append_right _ (List.mem_cons_self _ _))
  · intro a b bs x rest hza hzb hfa hcast
    simp [ballResetEvent, hza, hzb, hfa, hcast]
  · intro a b hza hzb
    simp [ballResetEvent, hza, hzb]
  · intro a b hza hfb
    simp [ballResetEvent, hza, hfb]
  · intro a b hza hzb hfa
    simp [ballResetEvent, hza, hzb, hfa]

/-- Witness for C6 at a concrete world: zone entity 10 ends contact with
ball entity 3 owned by participant A; the ball teleports to (50, spawn
height) with zero velocity and ball entity 4 is untouched. -/
theorem ball_reset_zone_exit_witness :
    ballResetEvent isZoneDemo rootsDemo noIntersect ballsDemo [50]
        (.Stopped 10 3) =
      (updateBall ballsDemo 3
        { demoBallA with pos := (50, WORKER_BALL_SPAWN_Y), vel := (0, 0), angvel := 0 }, [])
    ∧ inSpan 50 ∧ (casterAt rootsDemo noIntersect demoBallA.participant).free 50 = true := by
  have h := (ball_reset_zone_exit isZoneDemo rootsDemo noIntersect ballsDemo [50]).1
    10 3 demoBallA 50 [] (by decide) (by decide) rfl (by decide)
  exact ⟨h.1, h.2.1, h.2.2.1⟩

-- C7: the restart coordinator.

theorem RTimer.tick_duration (t : RTimer) (d : ℚ) : (t.tick d).duration = t.duration := by
  unfold RTimer.tick
  dsimp only
  split <;> rfl

theorem WorkerBallSpawner.reset_eq (L : ℚ) (s : WorkerBallSpawner) :
    s.reset L =
      ⟨(RTimer.mk s.timer.duration 0 false).tick (WORKER_BALL_SPAWN_TIMER_SECS - L), 0⟩ := rfl

theorem WorkerBallSpawner.reset_duration (L : ℚ) (s : WorkerBallSpawner) :
    (s.reset L).timer.duration = s.timer.duration := by
  rw [WorkerBallSpawner.reset_eq]
  exact RTimer.tick_duration _ _

theorem WorkerBallSpawner.reset_reset (L : ℚ) (s : WorkerBallSpawner) :
    (s.reset L).reset L = s.reset L := by
  rw [WorkerBallSpawner.reset_eq (s := s.reset L), WorkerBallSpawner.reset_duration,
    WorkerBallSpawner.reset_eq (s := s)]

theorem parkIdleTrails_idem : ∀ (ts : List TrailEnt) (g : Bool),
    parkIdleTrails g (parkIdleTrails g ts) = parkIdleTrails g ts := by
  intro ts
  induction ts with
  | nil => intro g; rfl
  | cons t rest ih =>
    intro g
    cases hst : t.state with
    | Idle b => simp [parkIdleTrails, hst, ih (!g)]
    | Active e => simp [parkIdleTrails, hst, ih g]

theorem parkIdleTrails_parked : ∀ (ts : List TrailEnt) (g : Bool),
    ((parkIdleTrails g ts).all fun t => !trailIsIdle t || trailParkedOk t) = true := by
  intro ts
  induction ts with
  | nil => intro g; rfl
  | cons t rest ih =>
    intro g
    cases hst : t.state with
    | Idle b =>
      simp only [parkIdleTrails, hst, List.all_cons, ih]
      cases g <;> rfl
    | Active e =>
      simp only [parkIdleTrails, hst, List.all_cons]
      have ht : trailIsIdle t = false := by simp [trailIsIdle, hst]
      simp only [ht, Bool.not_false, Bool.true_or, Bool.true_and]
      exact ih g

/-- C7 counterexample: a trail that is Active when restart runs has no
InactiveWorkerBallTrail component, so the restart trail query skips it and
it stays Active; the post restart state therefore does not have every trail
Idle, contradicting the stated description of the observable state. -/
theorem restart_not_all_idle_counterexample :
    ((restart 4 cexWorld7).trails.all trailIsIdle) = false := rfl

/-- C7 amended: invoking restart twice in succession with no ticks in
between yields exactly the same state as invoking it once; after one
invocation the worker ball population is empty, the spawner is back at its
initial phase shifted state with the counter at zero, every trail that
restart touched (those already Idle) is color suppressed and parked at a
resting position at spawn height, and the Local toggle of the trail update
system is untouched. Trails still Active at restart time are outside the
restart query and keep their state in both the once and twice invoked
runs. -/
theorem restart_idempotent_amended (L : ℚ) (w : World)
    (hdur : w.spawner.timer.duration = WORKER_BALL_SPAWN_TIMER_SECS) :
    restart L (restart L w) = restart L w
    ∧ (restart L w).balls = []
    ∧ (restart L w).spawner = WorkerBallSpawner.new L
    ∧ ((restart L w).trails.all fun t => !trailIsIdle t || trailParkedOk t) = true
    ∧ (restart L w).goLeft = w.goLeft := by
  refine ⟨?_, rfl, ?_, parkIdleTrails_parked w.trails false, rfl⟩
  · unfold restart
    simp [WorkerBallSpawner.reset_reset, parkIdleTrails_idem]
  · show w.spawner.reset L = WorkerBallSpawner.new L
    rw [WorkerBallSpawner.reset_eq, hdur]
    rfl

theorem cexWorld7_duration :
    cexWorld7.spawner.timer.duration = WORKER_BALL_SPAWN_TIMER_SECS := by
  show ((RTimer.mk WORKER_BALL_SPAWN_TIMER_SECS 0 false).tick
    (WORKER_BALL_SPAWN_TIMER_SECS - 4)).duration = WORKER_BALL_SPAWN_TIMER_SECS
  rw [RTimer.tick_duration]

/-- Witness for C7 amended at a concrete world holding one Active trail. -/
theorem restart_idempotent_amended_witness :
    restart 4 (restart 4 cexWorld7) = restart 4 cexWorld7
    ∧ (restart 4 cexWorld7).balls = []
    ∧ (restart 4 cexWorld7).spawner = WorkerBallSpawner.new 4
    ∧ ((restart 4 cexWorld7).trails.all fun t => !trailIsIdle t || trailParkedOk t) = true
    ∧ (restart 4 cexWorld7).goLeft = cexWorld7.goLeft :=
  restart_idempotent_amended 4 cexWorld7 cexWorld7_duration

-- C8: the population cap gate.

/-- C8 counterexample: with the counter at the cap and a positive frame
delta, the gated spawn system leaves the whole spawner untouched — in
particular the timer elapsed time does not increase, refuting the statement
that the timer keeps advancing internally while capped. The timer tick call
sits inside the gated system body, so it is simply skipped. -/
theorem spawn_cap_timer_counterexample :
    cexSpawner8.counter = WORKER_BALL_COUNT_MAX
    ∧ ¬ (cexSpawner8.timer.elapsed <
        (spawnWorkersStep cexSpawner8 1 (fun _ => true) cexCaster cexCaster 1 [] []).1.timer.elapsed) := by
  constructor
  · rfl
  · intro hlt
    have : (spawnWorkersStep cexSpawner8 1 (fun _ => true) cexCaster cexCaster 1 [] []).1 =
        cexSpawner8 := rfl
    rw [this] at hlt
    exact lt_irrefl _ hlt

/-- C8 amended: once the spawn round counter has reached
WORKER_BALL_COUNT_MAX, the run condition fails before the system body runs,
so no balls are spawned and the spawner — its timer included — is left
completely unchanged until an external reset; the cap is indeed a gate
evaluated before the timer tick, but while capped the timer is frozen, not
advancing. -/
theorem spawn_cap_gate_amended (s : WorkerBallSpawner) (delta : ℚ)
    (surv : Participant → Bool) (cl cr : ShapeCaster) (fuel : Nat)
    (samples : List ℚ) (idle : List IdleTrail)
    (hcap : WORKER_BALL_COUNT_MAX ≤ s.counter) :
    spawnWorkersStep s delta surv cl cr fuel samples idle = (s, none) := by
  unfold spawnWorkersStep
  rw [if_neg (Nat.not_lt.mpr hcap)]

/-- Witness for C8 amended at the concrete capped spawner. -/
theorem spawn_cap_gate_amended_witness :
    spawnWorkersStep cexSpawner8 1 (fun _ => true) cexCaster cexCaster 1 [] [] =
      (cexSpawner8, none) :=
  spawn_cap_gate_amended cexSpawner8 1 (fun _ => true) cexCaster cexCaster 1 [] []
    (by decide)

-- C9: the left/right alternation toggle.

/-- C9 counterexample: the idle transition toggle is the Local go_left of
update_workers_particle_position, persisted across ticks and restarts,
while restart uses its own fresh local variable. Here one transition has
already flipped the Local to true; after a restart, the next vanished ball
transition tags its trail with true (the persisted value), not with the
fixed initial value false — so restart does not restart the alternation
sequence. -/
theorem toggle_not_reset_counterexample :
    (restart 4 cexWorld9).goLeft = true
    ∧ ((update_workers_particle_position resolveNone (restart 4 cexWorld9)).trails.map
        TrailEnt.state) = [TrailState.Idle true]
    ∧ ((update_workers_particle_position resolveNone (restart 4 cexWorld9)).trails.map
        TrailEnt.state) ≠ [TrailState.Idle false] := by
  refine ⟨rfl, rfl, ?_⟩
  intro h
  have h2 : ((update_workers_particle_position resolveNone (restart 4 cexWorld9)).trails.map
      TrailEnt.state) = [TrailState.Idle true] := rfl
  rw [h2] at h
  simp at h

/-- C9 amended: the alternation toggle used when a linked ball vanishes is
per system Local state of update_workers_particle_position; the restart
coordinator runs its own separate toggle, freshly initialized each
invocation, over the idle trails, and leaves the transition toggle exactly
as it was — so the first Idle transition after a restart uses the persisted
pre restart toggle value, not a fixed initial value. -/
theorem toggle_separate_amended (L : ℚ) (w : World)
    (resolve : Entity → Option (ℚ × ℚ)) (c : Option Nat) (p : ℚ × ℚ) (e : Entity)
    (htrails : w.trails = [⟨c, p, TrailState.Active e⟩]) (hres : resolve e = none) :
    (restart L w).goLeft = w.goLeft
    ∧ ((update_workers_particle_position resolve (restart L w)).trails.map
        TrailEnt.state) = [TrailState.Idle w.goLeft] := by
  refine ⟨rfl, ?_⟩
  simp [update_workers_particle_position, restart, htrails, parkIdleTrails, updateTrails, hres]

/-- Witness for C9 amended at the concrete world whose Local toggle is
true. -/
theorem toggle_separate_amended_witness :
    (restart 4 cexWorld9).goLeft = cexWorld9.goLeft
    ∧ ((update_workers_particle_position resolveNone (restart 4 cexWorld9)).trails.map
        TrailEnt.state) = [TrailState.Idle cexWorld9.goLeft] :=
  toggle_separate_amended 4 cexWorld9 resolveNone (some 2) (0, 0) 9 rfl rfl

-- C10: the spawn round counter.

theorem spawnPanel_balls_shape (survA survB : Bool) (a b : Participant) (wantLeft : Bool)
    (c : ShapeCaster) (fuel : Nat) (samples : List ℚ) (idle : List IdleTrail)
    (P : PanelResult)
    (h : spawnPanel survA survB a b wantLeft c fuel samples idle = some P) :
    P.balls.length ≤ 2 ∧ (survA = false → survB = false → P.balls = []) := by
  cases survA <;> cases survB
  · simp only [spawnPanel, Option.some.injEq] at h
    subst h
    exact ⟨by simp, fun _ _ => rfl⟩
  · rw [spawnPanel] at h
    cases hc : castGet c.free samples with
    | none => rw [hc] at h; simp at h
    | some v =>
      rw [hc] at h
      obtain ⟨x, rest⟩ := v
      dsimp only at h
      obtain rfl := Option.some.inj h
      exact ⟨by simp, by simp⟩
  · rw [spawnPanel] at h
    cases hc : castGet c.free samples with
    | none => rw [hc] at h; simp at h
    | some v =>
      rw [hc] at h
      obtain ⟨x, rest⟩ := v
      dsimp only at h
      obtain rfl := Option.some.inj h
      exact ⟨by simp, by simp⟩
  · rw [spawnPanel] at h
    cases hc : drawPair c.free fuel samples with
    | none => rw [hc] at h; simp at h
    | some v =>
      rw [hc] at h
      obtain ⟨xa, xb, rest⟩ := v
      dsimp only at h
      obtain rfl := Option.some.inj h
      exact ⟨by simp, by simp⟩

/-- C10: whenever the cap gate passes and the ticked timer just finished,
the spawn round counter increases by exactly one, whatever the liveness
snapshot and however many balls the round produced; a round produces at
most two balls per panel, and zero balls when all four participants are
dead — yet the counter still advances, so WORKER_BALL_COUNT_MAX bounds the
number of spawn rounds between resets, not the number of live balls; and
the counter never exceeds the cap. -/
theorem spawn_round_counter (s : WorkerBallSpawner) (delta : ℚ)
    (surv : Participant → Bool) (cl cr : ShapeCaster) (fuel : Nat)
    (samples : List ℚ) (idle : List IdleTrail)
    (hcap : s.counter < WORKER_BALL_COUNT_MAX)
    (hfire : (s.timer.tick delta).justFinished = true) :
    (spawnWorkersStep s delta surv cl cr fuel samples idle).1.counter = s.counter + 1
    ∧ (∀ L R, spawnBothPanels surv cl cr fuel samples idle = some (L, R) →
        L.balls.length ≤ 2 ∧ R.balls.length ≤ 2
        ∧ (surv .A = false → surv .B = false → surv .C = false → surv .D = false →
            L.balls = [] ∧ R.balls = []))
    ∧ (∀ (s2 : WorkerBallSpawner) (d2 : ℚ) (sv2 : Participant → Bool)
        (cl2 cr2 : ShapeCaster) (f2 : Nat) (sm2 : List ℚ) (id2 : List IdleTrail),
        s2.counter ≤ WORKER_BALL_COUNT_MAX →
        (spawnWorkersStep s2 d2 sv2 cl2 cr2 f2 sm2 id2).1.counter ≤ WORKER_BALL_COUNT_MAX) := by
  refine ⟨?_, ?_, ?_⟩
  · simp [spawnWorkersStep, hcap, hfire]
  · intro L R h
    rw [spawnBothPanels] at h
    cases h1 : spawnPanel (surv .A) (surv .B) .A .B true cl fuel samples idle with
    | none => rw [h1] at h; simp at h
    | some PL =>
      rw [h1] at h
      dsimp only at h
      cases h2 : spawnPanel (surv .C) (surv .D) .C .D false cr fuel
          PL.samplesAfter PL.idleAfter with
      | none => rw [h2] at h; simp at h
      | some PR =>
        rw [h2] at h
        dsimp only at h
        obtain ⟨rfl, rfl⟩ : PL = L ∧ PR = R := by
          have := Option.some.inj h
          exact ⟨congrArg Prod.fst this, congrArg Prod.snd this⟩
        obtain ⟨hl1, hl2⟩ := spawnPanel_balls_shape _ _ _ _ _ _ _ _ _ _ h1
        obtain ⟨hr1, hr2⟩ := spawnPanel_balls_shape _ _ _ _ _ _ _ _ _ _ h2
        exact ⟨hl1, hr1, fun ha hb hc2 hd => ⟨hl2 ha hb, hr2 hc2 hd⟩⟩
  · intro s2 d2 sv2 cl2 cr2 f2 sm2 id2 hle
    unfold spawnWorkersStep
    by_cases hc2 : s2.counter < WORKER_BALL_COUNT_MAX
    · rw [if_pos hc2]
      by_cases hf : (s2.timer.tick d2).justFinished = true
      · simp only [hf, if_pos]
        omega
      · simp only [if_neg hf]
        exact hle
    · rw [if_neg hc2]
      exact hle

/-- Witness for C10: an uncapped spawner whose timer finishes on a one
second delta advances its counter from zero to one. -/
theorem spawn_round_counter_witness :
    (spawnWorkersStep demoSpawner10 1 (fun _ => false) cexCaster cexCaster 1 [] []).1.counter =
      demoSpawner10.counter + 1 :=
  (spawn_round_counter demoSpawner10 1 (fun _ => false) cexCaster cexCaster 1 [] []
    (by decide) (by norm_num [demoSpawner10, RTimer.tick])).1

end MOR
